import Mathlib

/-
Verification development for the retriv bridge
(src/src/modules/cost-monitor/retriv_bridge.py).

The bridge is a line-delimited-JSON command processor with three commands
(configure_retriever, index, search) over global session state
(retriever, indexed, indexed_docs, indexed_files).  The retriv library is
an external black box: its build and query operations are modelled as
oracles (BuildOutcome parameters and an Except-valued query result).
Wall-clock timing, logging and stdout flushing are incidental I/O and are
not modelled.  Python floats that only flow through configuration or
scores (never arithmetic) are modelled as rationals.
-/

namespace RetrivBridge

/-! ### Python string primitives used by the bridge -/

/-- Whitespace recognised by Python `str.strip` (the ASCII part). -/
def isPySpace (c : Char) : Bool :=
  c == ' ' || c == '\t' || c == '\n' || c == '\r' || c == '\x0b' || c == '\x0c'

/-- Remove trailing whitespace of a character list. -/
def stripRightList (l : List Char) : List Char :=
  (l.reverse.dropWhile isPySpace).reverse

/-- Remove leading and trailing whitespace of a character list. -/
def pyStripList (l : List Char) : List Char :=
  stripRightList (l.dropWhile isPySpace)

/-- Python `str.strip()`. -/
def pyStrip (s : String) : String :=
  ⟨pyStripList s.data⟩

/-- Accumulate the decimal value of a digit run. -/
def digitsVal (l : List Char) : Nat :=
  l.foldl (fun acc c => acc * 10 + (c.toNat - 48)) 0

/-- Parse a non-empty all-digit run, the digit part of Python `int(str)`. -/
def digitsToNat? (l : List Char) : Option Nat :=
  if l.isEmpty then none
  else if l.all Char.isDigit then some (digitsVal l) else none

/-- Python `int(str)`: strip whitespace, optional sign, non-empty digit run;
`none` models the `ValueError` raise. -/
def pyInt? (s : String) : Option Int :=
  match pyStripList s.data with
  | '-' :: rest => (digitsToNat? rest).map (fun n => -(n : Int))
  | '+' :: rest => (digitsToNat? rest).map (fun n => (n : Int))
  | l => (digitsToNat? l).map (fun n => (n : Int))

/-- Python `str.startswith`. -/
def strStartsWith (s pre : String) : Bool :=
  pre.data.isPrefixOf s.data

/-- Python `str.endswith` (used for the extension filter). -/
def strEndsWith (s suf : String) : Bool :=
  suf.data.isSuffixOf s.data

/-- Python slicing `s[n:]` by characters (used for `doc_id[4:]`). -/
def strDrop (s : String) (n : Nat) : String :=
  ⟨s.data.drop n⟩

/-- Python `str.isdigit` restricted to ASCII digits. -/
def pyIsDigit (s : String) : Bool :=
  !s.data.isEmpty && s.data.all Char.isDigit

/-! ### Document collection (process_index_command, lines 300-359) -/

/-- One entry of `text_documents`: the dict `{"id": ..., "text": ...}`. -/
structure TextDoc where
  id : String
  text : String
  deriving DecidableEq

/-- The three parallel accumulators of the collection loop:
`text_documents`, `file_paths`, `doc_ids`. -/
structure CollectAcc where
  textDocuments : List TextDoc := []
  filePaths : List String := []
  docIds : List String := []
  deriving DecidableEq

deriving instance DecidableEq for Except

/-- A file met during the walk of a directory: its joined path and the
outcome of opening/reading/decoding it (`Except.error` models the raise
that the per-file handler catches). -/
structure FileEntry where
  path : String
  read : Except String String
  deriving DecidableEq

/-- The extension filter `file.endswith(('.md', '.txt', ...))`. -/
def acceptedExtension (path : String) : Bool :=
  [".md", ".txt", ".py", ".js", ".ts", ".html", ".css", ".json"].any
    (fun e => strEndsWith path e)

/-- Per-file body of the directory walk: filter by extension, read, strip,
skip empty or unreadable files, otherwise append a record whose id ordinal
is the current `len(doc_ids)`. -/
def collectFile (acc : CollectAcc) (fe : FileEntry) : CollectAcc :=
  if acceptedExtension fe.path then
    match fe.read with
    | .ok raw =>
      let content := pyStrip raw
      if content.isEmpty then acc
      else
        let n := acc.docIds.length
        { textDocuments := acc.textDocuments ++ [⟨"doc_" ++ toString n, content⟩]
          filePaths := acc.filePaths ++ [fe.path]
          docIds := acc.docIds ++ ["doc_" ++ toString n] }
    | .error _ => acc
  else acc

/-- The modelled filesystem: directories that `os.path.exists` finds,
each with its files in `os.walk` order. -/
def FSys := List (String × List FileEntry)

/-- One directory of the outer loop: a missing directory is skipped
(`continue`), an existing one is walked file by file. -/
def collectDirectory (fsys : FSys) (acc : CollectAcc) (d : String) : CollectAcc :=
  match (fsys.find? (fun p => p.1 == d)) with
  | none => acc
  | some p => p.2.foldl collectFile acc

/-- Directory mode of the collector (lines 306-345). -/
def collectDirectories (fsys : FSys) (dirs : List String) : CollectAcc :=
  dirs.foldl (collectDirectory fsys) {}

/-- Inline-document mode (lines 348-359): `for i, doc in enumerate(documents)`,
keeping a document iff `doc.strip()` is truthy; note the id and the synthetic
file label both use the enumerate position `i`, and the stored text is the
unstripped document. -/
def collectDocumentsFrom : Nat → List String → CollectAcc
  | _, [] => {}
  | i, doc :: rest =>
    let tail := collectDocumentsFrom (i + 1) rest
    if (pyStrip doc).isEmpty then tail
    else
      { textDocuments := ⟨"doc_" ++ toString i, doc⟩ :: tail.textDocuments
        filePaths := ("document_" ++ toString i) :: tail.filePaths
        docIds := ("doc_" ++ toString i) :: tail.docIds }

/-- Inline-document mode entry point. -/
def collectDocuments (documents : List String) : CollectAcc :=
  collectDocumentsFrom 0 documents

/-! ### Retriever objects and session state -/

/-- The retriever instance held in the global `retriever`, with the
constructor arguments the bridge passes to the retriv classes.  The
retriv internals are a black box; only the configuration is state. -/
inductive Retriever where
  | sparse (indexName model : String) (minDf : Int)
      (tokenizer stemmer stopwords : String)
      (doLowercasing doAmpersandNormalization doSpecialCharsNormalization
        doAcronymsNormalization doPunctuationRemoval : Bool)
      (k1 b epsilon : Rat)
  | dense (indexName model : String) (normalize : Bool) (maxLength : Int)
      (useAnn : Bool)
  | hybrid (indexName srModel : String) (minDf : Int)
      (tokenizer stemmer stopwords : String)
      (doLowercasing doAmpersandNormalization doSpecialCharsNormalization
        doAcronymsNormalization doPunctuationRemoval : Bool)
      (drModel : String) (normalize : Bool) (maxLength : Int) (useAnn : Bool)
  deriving DecidableEq

/-- The global mutable state of the bridge: `retriever`, `indexed`,
`indexed_docs`, `indexed_files` (lines 15-19). -/
structure Session where
  retriever : Option Retriever := none
  indexed : Bool := false
  indexedDocs : List String := []
  indexedFiles : List String := []
  deriving DecidableEq

/-- The state at process startup. -/
def initialSession : Session := {}

/-- Import availability of the three retriv classes (`ImportError` is the
only failure the configure paths catch); `importErrorMsg` stands for
`str(e)` of the raised ImportError. -/
structure Env where
  sparseAvailable : Bool := true
  denseAvailable : Bool := true
  hybridAvailable : Bool := true
  importErrorMsg : String := "No module named retriv"

/-! ### configure_retriever (lines 34-203) -/

/-- `bm25_options` / `options`: each key read with `.get(key, default)`. -/
structure Bm25Options where
  k1 : Option Rat := none
  b : Option Rat := none
  epsilon : Option Rat := none
  deriving DecidableEq

/-- `text_preprocessing_options` of the sparse branch. -/
structure TextPreprocessingOptions where
  minDf : Option Int := none
  tokenizer : Option String := none
  stemmer : Option String := none
  stopwords : Option String := none
  doLowercasing : Option Bool := none
  doAmpersandNormalization : Option Bool := none
  doSpecialCharsNormalization : Option Bool := none
  doAcronymsNormalization : Option Bool := none
  doPunctuationRemoval : Option Bool := none
  deriving DecidableEq

/-- `dense_retriever_options`. -/
structure DenseRetrieverOptions where
  model : Option String := none
  normalize : Option Bool := none
  maxLength : Option Int := none
  useAnn : Option Bool := none
  deriving DecidableEq

/-- `hybrid_retriever_options`. -/
structure HybridRetrieverOptions where
  srModel : Option String := none
  drModel : Option String := none
  minDf : Option Int := none
  tokenizer : Option String := none
  stemmer : Option String := none
  stopwords : Option String := none
  doLowercasing : Option Bool := none
  doAmpersandNormalization : Option Bool := none
  doSpecialCharsNormalization : Option Bool := none
  doAcronymsNormalization : Option Bool := none
  doPunctuationRemoval : Option Bool := none
  normalize : Option Bool := none
  maxLength : Option Int := none
  useAnn : Option Bool := none
  deriving DecidableEq

/-- A `configure_retriever` command's fields. -/
structure ConfigureCmd where
  retrieverType : Option String := none
  bm25Options : Bm25Options := {}
  textPreprocessingOptions : TextPreprocessingOptions := {}
  denseRetrieverOptions : DenseRetrieverOptions := {}
  hybridRetrieverOptions : HybridRetrieverOptions := {}
  deriving DecidableEq

/-- The `{status, message}` JSON object configure prints. -/
structure ConfigureResponse where
  status : String
  message : String
  deriving DecidableEq

/-- Dense branch (lines 50-78): on ImportError an error response is
printed and the function returns without touching the session. -/
def configureDense (env : Env) (s : Session) (cmd : ConfigureCmd)
    (rtype : String) : ConfigureResponse × Session :=
  if env.denseAvailable then
    let o := cmd.denseRetrieverOptions
    let r := Retriever.dense "locallama-index"
      (o.model.getD "sentence-transformers/all-MiniLM-L6-v2")
      (o.normalize.getD true) (o.maxLength.getD 128) (o.useAnn.getD true)
    (⟨"success", "Successfully configured " ++ rtype ++ " retriever"⟩,
     { s with retriever := some r, indexed := false })
  else
    (⟨"error", "Failed to import DenseRetriever: " ++ env.importErrorMsg⟩, s)

/-- Hybrid branch (lines 80-128). -/
def configureHybrid (env : Env) (s : Session) (cmd : ConfigureCmd)
    (rtype : String) : ConfigureResponse × Session :=
  if env.hybridAvailable then
    let o := cmd.hybridRetrieverOptions
    let r := Retriever.hybrid "locallama-index" (o.srModel.getD "bm25")
      (o.minDf.getD 1) (o.tokenizer.getD "whitespace")
      (o.stemmer.getD "english") (o.stopwords.getD "english")
      (o.doLowercasing.getD true) (o.doAmpersandNormalization.getD true)
      (o.doSpecialCharsNormalization.getD true)
      (o.doAcronymsNormalization.getD true)
      (o.doPunctuationRemoval.getD true)
      (o.drModel.getD "sentence-transformers/all-MiniLM-L6-v2")
      (o.normalize.getD true) (o.maxLength.getD 128) (o.useAnn.getD true)
    (⟨"success", "Successfully configured " ++ rtype ++ " retriever"⟩,
     { s with retriever := some r, indexed := false })
  else
    (⟨"error", "Failed to import HybridRetriever: " ++ env.importErrorMsg⟩, s)

/-- Sparse (default) branch (lines 130-183): built from
`text_preprocessing_options`, then `hyperparams` set from `bm25_options`. -/
def configureSparse (env : Env) (s : Session) (cmd : ConfigureCmd)
    (rtype : String) : ConfigureResponse × Session :=
  if env.sparseAvailable then
    let t := cmd.textPreprocessingOptions
    let bm := cmd.bm25Options
    let r := Retriever.sparse "locallama-index" "bm25" (t.minDf.getD 1)
      (t.tokenizer.getD "whitespace") (t.stemmer.getD "english")
      (t.stopwords.getD "english") (t.doLowercasing.getD true)
      (t.doAmpersandNormalization.getD true)
      (t.doSpecialCharsNormalization.getD true)
      (t.doAcronymsNormalization.getD true)
      (t.doPunctuationRemoval.getD true)
      (bm.k1.getD 1.5) (bm.b.getD 0.75) (bm.epsilon.getD 0.25)
    (⟨"success", "Successfully configured " ++ rtype ++ " retriever"⟩,
     { s with retriever := some r, indexed := false })
  else
    (⟨"error", "Failed to import SparseRetriever: " ++ env.importErrorMsg⟩, s)

/-- process_configure_retriever_command: dispatch on
`command_data.get("retriever_type", "sparse")`; any string other than
"dense"/"hybrid" takes the sparse branch.  Every successful branch resets
`indexed` to False after installing the new retriever (lines 185-192). -/
def processConfigure (env : Env) (s : Session) (cmd : ConfigureCmd) :
    ConfigureResponse × Session :=
  let rtype := cmd.retrieverType.getD "sparse"
  if rtype = "dense" then configureDense env s cmd rtype
  else if rtype = "hybrid" then configureHybrid env s cmd rtype
  else configureSparse env s cmd rtype

/-! ### index (process_index_command, lines 205-466) -/

/-- An `index` command's fields. -/
structure IndexCmd where
  directories : List String := []
  documents : List String := []
  options : Bm25Options := {}
  retrieverType : Option String := none
  deriving DecidableEq

/-- Oracle for one backend build call (`retriever.index` or
`retriever.index_file`): `fail msg` models a raise with `str(e) = msg`. -/
inductive BuildOutcome where
  | ok
  | fail (msg : String)
  deriving DecidableEq

/-- Whether a build call raised. -/
def BuildOutcome.failed : BuildOutcome → Bool
  | .ok => false
  | .fail _ => true

/-- The JSON object an `index` command prints (timing omitted):
success (lines 400-407 and 432-439), the error after both build paths
failed (lines 444-449), the no-documents warning (lines 451-456), and the
outer-except error, reachable here only through an ImportError during
retriever initialization (lines 457-466). -/
inductive IndexResponse where
  | success (totalFiles : Nat) (filePaths : List String) (documentCount : Nat)
  | buildError (message : String) (totalFiles : Nat)
  | warning (message : String) (totalFiles : Nat)
  | setupError (message : String)
  deriving DecidableEq

/-- Everything observable about one `index` command: the printed response,
the session afterwards, and whether `temp_docs_for_indexing.jsonl` still
exists on the filesystem when the response is emitted. -/
structure IndexOutcome where
  response : IndexResponse
  session : Session
  stagingLeft : Bool
  deriving DecidableEq

/-- The retriever built inside process_index_command when the global is
still None (lines 230-298): hard-coded defaults, except that the sparse
branch applies the command's k1/b/epsilon options as hyperparams. -/
def defaultRetrieverFor (rtype : String) (k1 b epsilon : Rat) : Retriever :=
  if rtype = "dense" then
    .dense "locallama-index" "sentence-transformers/all-MiniLM-L6-v2"
      true 128 true
  else if rtype = "hybrid" then
    .hybrid "locallama-index" "bm25" 1 "whitespace" "english" "english"
      true true true true true
      "sentence-transformers/all-MiniLM-L6-v2" true 128 true
  else
    .sparse "locallama-index" "bm25" 1 "whitespace" "english" "english"
      true true true true true k1 b epsilon

/-- Which availability flag the initialization of `rtype` depends on. -/
def availableFor (env : Env) (rtype : String) : Bool :=
  if rtype = "dense" then env.denseAvailable
  else if rtype = "hybrid" then env.hybridAvailable
  else env.sparseAvailable

/-- Document collection performed by an `index` command:
`if directories: ... elif documents: ...` (truthiness of the lists). -/
def collectedFor (fsys : FSys) (cmd : IndexCmd) : CollectAcc :=
  if !cmd.directories.isEmpty then collectDirectories fsys cmd.directories
  else if !cmd.documents.isEmpty then collectDocuments cmd.documents
  else {}

/-- The body of process_index_command once a retriever `r` is in hand
(lines 300-456).  The corpus globals `indexed_docs`/`indexed_files` are
replaced before any build attempt (lines 361-363).  The primary build is
tried first; on a raise the fallback writes the staging JSONL, calls
`index_file`, and removes the file only on the success path (lines
414-449) — a second raise skips `os.remove`, leaving the artifact. -/
def indexWithRetriever (fsys : FSys) (primary fallback : BuildOutcome)
    (s : Session) (cmd : IndexCmd) (r : Retriever) : IndexOutcome :=
  let acc := collectedFor fsys cmd
  let s1 : Session :=
    { retriever := some r, indexed := s.indexed
      indexedDocs := acc.textDocuments.map TextDoc.text
      indexedFiles := acc.filePaths }
  let totalDocs := acc.textDocuments.length
  if acc.textDocuments.isEmpty then
    ⟨.warning "No documents found to index" 0, s1, false⟩
  else
    match primary with
    | .ok =>
      ⟨.success totalDocs acc.filePaths totalDocs,
       { s1 with indexed := true }, false⟩
    | .fail e1 =>
      match fallback with
      | .ok =>
        ⟨.success totalDocs acc.filePaths totalDocs,
         { s1 with indexed := true }, false⟩
      | .fail e2 =>
        ⟨.buildError ("Error during indexing: " ++ e1 ++
            ". Alternative method error: " ++ e2) totalDocs,
         s1, true⟩

/-- process_index_command: when no retriever exists yet, one is first
constructed from the command's `retriever_type` (default "sparse") and
k1/b/epsilon options; an ImportError there propagates to the outer except
(error response, session untouched, lines 457-466). -/
def processIndex (env : Env) (fsys : FSys) (primary fallback : BuildOutcome)
    (s : Session) (cmd : IndexCmd) : IndexOutcome :=
  let rtype := cmd.retrieverType.getD "sparse"
  let k1 := cmd.options.k1.getD 1.5
  let b := cmd.options.b.getD 0.75
  let epsilon := cmd.options.epsilon.getD 0.25
  match s.retriever with
  | some r => indexWithRetriever fsys primary fallback s cmd r
  | none =>
    if availableFor env rtype then
      indexWithRetriever fsys primary fallback s cmd
        (defaultRetrieverFor rtype k1 b epsilon)
    else
      ⟨.setupError env.importErrorMsg, s, false⟩

/-- Whether the retriever-initialization step of an `index` command
runs without raising. -/
def setupOk (env : Env) (s : Session) (cmd : IndexCmd) : Bool :=
  s.retriever.isSome || availableFor env (cmd.retrieverType.getD "sparse")

/-! ### search (process_search_command, lines 468-567) -/

/-- A Python value sitting in the identifier slot of a raw result:
the bridge distinguishes `isinstance(doc_id, str)` from other values
(integers in practice). -/
inductive IdVal where
  | str (s : String)
  | int (n : Int)
  deriving DecidableEq

/-- The f-string rendering of an identifier value. -/
def idStr : IdVal → String
  | .str s => s
  | .int n => toString n

/-- A Python value in a score slot: `num` is any value `float(...)`
accepts (modelled by its rational value), `nonNumeric` any value on which
`float(...)` raises. -/
inductive SVal where
  | num (q : Rat)
  | nonNumeric (s : String)
  deriving DecidableEq

/-- Python `float(score)`: `none` models the raise. -/
def pyFloat? : SVal → Option Rat
  | .num q => some q
  | .nonNumeric _ => none

/-- One raw entry of `retriever.search(...)`: a dict (fields read with
`.get` and per-key defaults), a 2-tuple `(doc_id, score)`, or anything
else (which the bridge replaces by `(f"result_{i}", 1.0)`). -/
inductive RawResult where
  | dict (id : Option IdVal) (score : Option SVal) (text : Option String)
  | pair (docId : IdVal) (score : SVal)
  | other
  deriving DecidableEq

/-- One formatted entry `{index, score, content, file_path}`. -/
structure FormattedResult where
  index : Nat
  score : Rat
  content : String
  filePath : String
  deriving DecidableEq

/-- The placeholder `f"[Content not available for {doc_id}]"`. -/
def contentUnavailable (docId : IdVal) : String :=
  "[Content not available for " ++ idStr docId ++ "]"

/-- Tuple-branch identifier conversion (lines 534-535):
`int(doc_id) if isinstance(doc_id, str) and doc_id.isdigit() else int(doc_id)`
— both arms apply Python `int` to the value, so a string converts iff
`int(str)` accepts it and any other value is already an int. -/
def tupleIdx? : IdVal → Option Int
  | .str s => pyInt? s
  | .int n => some n

/-- Tuple-branch content/file_path resolution (lines 533-540): on a
conversion raise, or out-of-range index, the placeholder text and
"Unknown" are substituted; the two range checks are separate. -/
def pairContentPath (docs files : List String) (docId : IdVal) :
    String × String :=
  match tupleIdx? docId with
  | some idx =>
    (if 0 ≤ idx ∧ idx < (docs.length : Int) then docs.getD idx.toNat ""
     else contentUnavailable docId,
     if 0 ≤ idx ∧ idx < (files.length : Int) then files.getD idx.toNat ""
     else "Unknown")
  | none => (contentUnavailable docId, "Unknown")

/-- Dict-branch file_path recovery (lines 520-528): only string ids of the
form `doc_<suffix>` are parsed — `int(doc_id[4:])` — and only `file_path`
is looked up; a parse raise or an out-of-range ordinal leaves "Unknown". -/
def dictFilePath (docId : IdVal) (files : List String) : String :=
  match docId with
  | .str s =>
    if strStartsWith s "doc_" then
      match pyInt? (strDrop s 4) with
      | some idx =>
        if 0 ≤ idx ∧ idx < (files.length : Int) then
          files.getD idx.toNat "Unknown"
        else "Unknown"
      | none => "Unknown"
    else "Unknown"
  | .int _ => "Unknown"

/-- Per-entry resolution (lines 511-550): `none` models a raise inside the
per-entry try (the only raise point left after modelling is
`float(score)`), in which case the entry is logged and skipped. -/
def processResult (docs files : List String) (i : Nat) (r : RawResult) :
    Option FormattedResult :=
  match r with
  | .dict id? score? text? =>
    let docId := id?.getD (.str ("doc_" ++ toString i))
    let content := text?.getD ""
    let filePath := dictFilePath docId files
    (pyFloat? (score?.getD (.num 0))).map
      (fun sc => ⟨i, sc, content, filePath⟩)
  | .pair docId scoreV =>
    let cf := pairContentPath docs files docId
    (pyFloat? scoreV).map (fun sc => ⟨i, sc, cf.1, cf.2⟩)
  | .other =>
    let cf := pairContentPath docs files (.str ("result_" ++ toString i))
    some ⟨i, 1, cf.1, cf.2⟩

/-- The `for i, result in enumerate(results)` loop: resolved entries are
appended in iteration order, failed ones skipped. -/
def formatResultsAux (docs files : List String) :
    Nat → List RawResult → List FormattedResult
  | _, [] => []
  | i, r :: rs =>
    match processResult docs files i r with
    | some fr => fr :: formatResultsAux docs files (i + 1) rs
    | none => formatResultsAux docs files (i + 1) rs

/-- Result formatting over a whole raw result list. -/
def formatResults (docs files : List String) (rs : List RawResult) :
    List FormattedResult :=
  formatResultsAux docs files 0 rs

/-- A `search` command's fields (`topK` is only forwarded to the backend,
which the query oracle already stands for). -/
structure SearchCmd where
  query : Option String := none
  topK : Option Int := none
  deriving DecidableEq

/-- The `{action: "search_results", results, [error]}` JSON object
(timing and stack_trace omitted). -/
structure SearchResponse where
  results : List FormattedResult
  error : Option String
  deriving DecidableEq

/-- Everything observable about one `search` command; `queried` records
whether `retriever.search` was invoked. -/
structure SearchOutcome where
  response : SearchResponse
  session : Session
  queried : Bool
  deriving DecidableEq

/-- process_search_command: gate on `not indexed or retriever is None`,
then on the empty query, then run the backend query (`Except.error`
models a raise of `retriever.search` with `str(e)` as message). -/
def processSearch (qres : Except String (List RawResult)) (s : Session)
    (cmd : SearchCmd) : SearchOutcome :=
  if !s.indexed || s.retriever.isNone then
    ⟨⟨[], some "No documents have been indexed yet"⟩, s, false⟩
  else
    let query := cmd.query.getD ""
    if query.isEmpty then
      ⟨⟨[], some "Empty query provided"⟩, s, false⟩
    else
      match qres with
      | .ok rawResults =>
        ⟨⟨formatResults s.indexedDocs s.indexedFiles rawResults, none⟩,
         s, true⟩
      | .error e => ⟨⟨[], some e⟩, s, true⟩

/-! ### The command loop (main, lines 625-657) -/

/-- A parsed command object, dispatched on `command.get("action", "")`. -/
inductive Command where
  | configureRetriever (c : ConfigureCmd)
  | index (c : IndexCmd)
  | search (c : SearchCmd)
  | unknown (action : String)

/-- One line read from stdin: empty after strip (skipped with no
response), not valid JSON (json.JSONDecodeError), or a command object. -/
inductive InputLine where
  | blank
  | malformed
  | cmd (c : Command)

/-- Whether a line is skipped by `if not line: continue`. -/
def isBlankLine : InputLine → Bool
  | .blank => true
  | _ => false

/-- The one JSON object written to stdout for a processed line. -/
inductive LineResponse where
  | invalidJson
  | unknownAction (action : String)
  | configureResp (r : ConfigureResponse)
  | indexResp (r : IndexResponse)
  | searchResp (r : SearchResponse)

/-- The external-world parameters one line's processing can consume. -/
structure StepOracle where
  env : Env := {}
  fsys : FSys := []
  primary : BuildOutcome := .ok
  fallback : BuildOutcome := .ok
  queryRes : Except String (List RawResult) := .ok []

/-- Processing of one input line: at most one response, next session. -/
def stepLine (o : StepOracle) (s : Session) :
    InputLine → Option LineResponse × Session
  | .blank => (none, s)
  | .malformed => (some .invalidJson, s)
  | .cmd (.configureRetriever c) =>
    (some (.configureResp (processConfigure o.env s c).1),
     (processConfigure o.env s c).2)
  | .cmd (.index c) =>
    (some (.indexResp
        (processIndex o.env o.fsys o.primary o.fallback s c).response),
     (processIndex o.env o.fsys o.primary o.fallback s c).session)
  | .cmd (.search c) =>
    (some (.searchResp (processSearch o.queryRes s c).response),
     (processSearch o.queryRes s c).session)
  | .cmd (.unknown a) => (some (.unknownAction a), s)

/-- `for line in sys.stdin`: every line is processed in order; the whole
function is total, so nothing a command does ends the loop — it stops
exactly when the input list is exhausted. -/
def runLoop : List (InputLine × StepOracle) → Session →
    List LineResponse × Session
  | [], s => ([], s)
  | p :: rest, s =>
    let step := stepLine p.2 s p.1
    let tail := runLoop rest step.2
    (step.1.toList ++ tail.1, tail.2)

/-! ### Concrete scenario data (used by witnesses and counterexamples) -/

/-- The session after a successful default sparse configure. -/
def readySession : Session :=
  ⟨some (defaultRetrieverFor "sparse" 1.5 0.75 0.25), false, [], []⟩

/-- A session holding a previously built, working index over one document. -/
def indexedOldSession : Session :=
  ⟨some (defaultRetrieverFor "sparse" 1.5 0.75 0.25), true,
   ["old text"], ["old path"]⟩

/-- The session reached by configure → index(success) over two inline
documents: the chain of §8 Scenario A up to the second configure. -/
def chainSession : Session :=
  (processIndex {} [] .ok .ok (processConfigure {} initialSession {}).2
    { documents := ["the cat sat", "the dog ran"] }).session

/-! ### Helper lemmas -/

theorem dataAppend (a b : String) : (a ++ b).data = a.data ++ b.data := by
  cases a; cases b; rfl

theorem dropWhileAppendNotHit (p : Char → Bool) (c : Char) (h : p c = false) :
    ∀ l : List Char, (l ++ [c]).dropWhile p = l.dropWhile p ++ [c]
  | [] => by simp [List.dropWhile_cons, h]
  | a :: as => by
    by_cases hpa : p a
    · simp [List.dropWhile_cons, hpa, dropWhileAppendNotHit p c h as]
    · simp [List.dropWhile_cons, hpa]

theorem stripRightConsNotSpace (c : Char) (l : List Char)
    (h : isPySpace c = false) :
    stripRightList (c :: l) = c :: stripRightList l := by
  unfold stripRightList
  rw [List.reverse_cons, dropWhileAppendNotHit isPySpace c h,
    List.reverse_append]
  rfl

/-- Python `int` raises on every string of the shape `doc_<anything>`. -/
theorem pyIntNoneOfDocPrefixed (t : String) : pyInt? ("doc_" ++ t) = none := by
  cases t with
  | mk l =>
    show pyInt? ⟨'d' :: 'o' :: 'c' :: '_' :: l⟩ = none
    unfold pyInt? pyStripList
    rw [show List.dropWhile isPySpace ('d' :: 'o' :: 'c' :: '_' :: l)
          = 'd' :: 'o' :: 'c' :: '_' :: l from rfl,
        stripRightConsNotSpace 'd' _ (by decide)]
    show (digitsToNat? ('d' :: stripRightList ('o' :: 'c' :: '_' :: l))).map
      (fun n => (n : Int)) = none
    simp [digitsToNat?, show Char.isDigit 'd' = false from rfl]

theorem strStartsWithAppendSelf (p t : String) :
    strStartsWith (p ++ t) p = true := by
  unfold strStartsWith
  rw [dataAppend]
  induction p.data with
  | nil => simp
  | cons a as ih => simp [List.isPrefixOf_cons₂, ih]

theorem strDropDocPrefixed (t : String) : strDrop ("doc_" ++ t) 4 = t := by
  cases t with
  | mk l => rfl

/-- Every entry the mapper emits carries its received enumerate rank. -/
theorem processResultIndex (docs files : List String) (i : Nat) (r : RawResult)
    (fr : FormattedResult) (h : processResult docs files i r = some fr) :
    fr.index = i := by
  cases r with
  | dict id? score? text? =>
    cases hsv : pyFloat? (score?.getD (.num 0)) with
    | none => simp [processResult, hsv] at h
    | some q => simp [processResult, hsv] at h; rw [← h]
  | pair docId scoreV =>
    cases hsv : pyFloat? scoreV with
    | none => simp [processResult, hsv] at h
    | some q => simp [processResult, hsv] at h; rw [← h]
  | other =>
    simp [processResult] at h
    rw [← h]

/-- Every formatted entry comes from the raw entry at its own rank. -/
theorem formatResultsAuxMem (docs files : List String) :
    ∀ (rs : List RawResult) (k : Nat) (fr : FormattedResult),
      fr ∈ formatResultsAux docs files k rs →
      ∃ j, ∃ h : j < rs.length, fr.index = k + j ∧
        processResult docs files fr.index (rs.get ⟨j, h⟩) = some fr := by
  intro rs
  induction rs with
  | nil => intro k fr hfr; simp [formatResultsAux] at hfr
  | cons r rest ih =>
    intro k fr hfr
    cases hpr : processResult docs files k r with
    | some fr0 =>
      rw [formatResultsAux, hpr] at hfr
      rcases List.mem_cons.mp hfr with heq | htail
      · subst heq
        refine ⟨0, by simp, ?_, ?_⟩
        · rw [processResultIndex docs files k r fr hpr]
          omega
        · rw [processResultIndex docs files k r fr hpr]
          exact hpr
      · obtain ⟨j, hj, hidx, hres⟩ := ih (k + 1) fr htail
        exact ⟨j + 1, by simpa using Nat.succ_lt_succ hj,
          by omega, by simpa using hres⟩
    | none =>
      rw [formatResultsAux, hpr] at hfr
      obtain ⟨j, hj, hidx, hres⟩ := ih (k + 1) fr hfr
      exact ⟨j + 1, by simpa using Nat.succ_lt_succ hj,
        by omega, by simpa using hres⟩

/-- The emitted ranks are strictly increasing: backend order, never
re-sorted. -/
theorem formatResultsAuxPairwise (docs files : List String) :
    ∀ (rs : List RawResult) (k : Nat),
      List.Pairwise (fun a b => a < b)
        ((formatResultsAux docs files k rs).map FormattedResult.index) := by
  intro rs
  induction rs with
  | nil => intro k; simp [formatResultsAux]
  | cons r rest ih =>
    intro k
    cases hpr : processResult docs files k r with
    | none => rw [formatResultsAux, hpr]; exact ih (k + 1)
    | some fr0 =>
      rw [formatResultsAux, hpr]
      rw [List.map_cons, List.pairwise_cons]
      constructor
      · intro x hx
        obtain ⟨fr, hfr, hfx⟩ := List.mem_map.mp hx
        obtain ⟨j, hj, hidx, _⟩ :=
          formatResultsAuxMem docs files rest (k + 1) fr hfr
        rw [processResultIndex docs files k r fr0 hpr, ← hfx, hidx]
        omega
      · exact ih (k + 1)

/-- A raw entry whose resolution raises contributes no formatted entry. -/
theorem formatResultsAuxNotMem (docs files : List String) :
    ∀ (rs : List RawResult) (k i : Nat) (h : i < rs.length),
      processResult docs files (k + i) (rs.get ⟨i, h⟩) = none →
      ∀ fr ∈ formatResultsAux docs files k rs, fr.index ≠ k + i := by
  intro rs
  induction rs with
  | nil => intro k i h; simp at h
  | cons r rest ih =>
    intro k i h hnone fr hfr
    cases i with
    | zero =>
      have hk : processResult docs files k r = none := by simpa using hnone
      rw [formatResultsAux, hk] at hfr
      obtain ⟨j, hj, hidx, _⟩ :=
        formatResultsAuxMem docs files rest (k + 1) fr hfr
      omega
    | succ i0 =>
      have hlt : i0 < rest.length := by simpa using Nat.lt_of_succ_lt_succ h
      have hnone0 : processResult docs files ((k + 1) + i0)
          (rest.get ⟨i0, hlt⟩) = none := by
        have heq : (k + 1) + i0 = k + (i0 + 1) := by omega
        rw [heq]
        simpa using hnone
      cases hpr : processResult docs files k r with
      | some fr0 =>
        rw [formatResultsAux, hpr] at hfr
        rcases List.mem_cons.mp hfr with heq | htail
        · subst heq
          rw [processResultIndex docs files k r fr hpr]
          omega
        · have := ih (k + 1) i0 hlt hnone0 fr htail
          omega
      | none =>
        rw [formatResultsAux, hpr] at hfr
        have := ih (k + 1) i0 hlt hnone0 fr hfr
        omega

/-- Non-blank lines produce exactly one response object. -/
theorem stepLineRespLength (o : StepOracle) (s : Session) (l : InputLine) :
    (stepLine o s l).1.toList.length = if isBlankLine l then 0 else 1 := by
  cases l with
  | blank => rfl
  | malformed => rfl
  | cmd c => cases c <;> rfl

/-- The loop always runs to the end of the input: one response per
non-blank line, regardless of what the commands did. -/
theorem runLoopLength (lines : List (InputLine × StepOracle)) (s : Session) :
    (runLoop lines s).1.length = lines.countP (fun p => !isBlankLine p.1) := by
  induction lines generalizing s with
  | nil => rfl
  | cons p rest ih =>
    simp only [runLoop]
    rw [List.length_append, stepLineRespLength, ih, List.countP_cons]
    cases hb : isBlankLine p.1 <;> simp [hb, Nat.add_comm]

/-- Loop processing decomposes over concatenation of the input. -/
theorem runLoopAppend (xs ys : List (InputLine × StepOracle)) (s : Session) :
    runLoop (xs ++ ys) s =
      ((runLoop xs s).1 ++ (runLoop ys (runLoop xs s).2).1,
       (runLoop ys (runLoop xs s).2).2) := by
  induction xs generalizing s with
  | nil => simp [runLoop]
  | cons p rest ih =>
    simp only [List.cons_append, runLoop, List.append_eq]
    rw [ih]
    simp [List.append_assoc]

/-! ### Claims -/

/-- C7: processing of one command never terminates the process — the loop
emits one response per non-blank input line all the way to end of input;
a malformed line anywhere in the stream yields the `Invalid JSON command`
error response, leaves the session unchanged, and the remaining lines are
processed exactly as they would have been without it. -/
theorem c7_loop_resilience (lines pre rest : List (InputLine × StepOracle))
    (o : StepOracle) (s0 s1 : Session) :
    (runLoop lines s1).1.length = lines.countP (fun p => !isBlankLine p.1)
    ∧ (runLoop (pre ++ (.malformed, o) :: rest) s0).1 =
        (runLoop pre s0).1 ++
          .invalidJson :: (runLoop rest (runLoop pre s0).2).1
    ∧ (runLoop (pre ++ (.malformed, o) :: rest) s0).2 =
        (runLoop rest (runLoop pre s0).2).2 := by
  refine ⟨runLoopLength lines s1, ?_, ?_⟩
  · rw [runLoopAppend]
    rfl
  · rw [runLoopAppend]
    rfl

/-- C9: a `search` in the Indexed state whose query is absent or empty
returns the `Empty query provided` empty-result response, never queries
the backend, and leaves the session unchanged. -/
theorem c9_empty_query (qres : Except String (List RawResult)) (s : Session)
    (cmd : SearchCmd) (r : Retriever) (hIdx : s.indexed = true)
    (hr : s.retriever = some r)
    (hq : cmd.query = none ∨ cmd.query = some "") :
    processSearch qres s cmd =
      ⟨⟨[], some "Empty query provided"⟩, s, false⟩ := by
  unfold processSearch
  rw [hIdx, hr]
  rcases hq with hq | hq <;> rw [hq] <;> rfl

theorem c9_witness :
    processSearch (.ok [.dict (some (.str "doc_0")) (some (.num 1)) (some "x")])
      indexedOldSession { topK := some 3 } =
      ⟨⟨[], some "Empty query provided"⟩, indexedOldSession, false⟩ :=
  c9_empty_query _ indexedOldSession { topK := some 3 }
    (defaultRetrieverFor "sparse" 1.5 0.75 0.25) rfl rfl (Or.inl rfl)

/-- C8 counterexample: an unrecognized `retriever_type` ("custom") with an
explicit `bm25_options.k1 = 9` configures the sparse retriever with
`k1 = 9`, not with the default parameters (`k1 = 1.5`) the claim states. -/
theorem c8_counterexample :
    (processConfigure {} initialSession
      { retrieverType := some "custom",
        bm25Options := { k1 := some 9 } }).2.retriever =
      some (.sparse "locallama-index" "bm25" 1 "whitespace" "english" "english"
        true true true true true 9 0.75 0.25)
    ∧ (processConfigure {} initialSession
        { retrieverType := some "custom",
          bm25Options := { k1 := some 9 } }).1.status = "success"
    ∧ (9 : Rat) ≠ 1.5 := by
  refine ⟨rfl, rfl, by norm_num⟩

/-- C8 (amended): an unrecognized `retriever_type` falls back to the
lexical (sparse) variant configured exactly as an explicit sparse request
with the same option bags — defaults apply only to absent options — and
never errors solely for the unrecognized string (only the echoed success
message differs). -/
theorem c8_amended (env : Env) (s : Session) (c : ConfigureCmd)
    (h1 : c.retrieverType.getD "sparse" ≠ "dense")
    (h2 : c.retrieverType.getD "sparse" ≠ "hybrid") :
    (processConfigure env s c).2 =
      (processConfigure env s { c with retrieverType := some "sparse" }).2
    ∧ (processConfigure env s c).1.status =
        (processConfigure env s
          { c with retrieverType := some "sparse" }).1.status
    ∧ (env.sparseAvailable = true →
        (processConfigure env s c).1.status = "success") := by
  unfold processConfigure
  simp only [Option.getD_some]
  rw [if_neg h1, if_neg h2, if_neg (by decide : ¬("sparse" = "dense")),
    if_neg (by decide : ¬("sparse" = "hybrid"))]
  unfold configureSparse
  cases hE : env.sparseAvailable <;> simp [hE]

theorem c8_witness :
    (processConfigure {} readySession
        { retrieverType := some "custom", bm25Options := { b := some 2 } }).2 =
      (processConfigure {} readySession
        { retrieverType := some "sparse", bm25Options := { b := some 2 } }).2
    ∧ (processConfigure {} readySession
        { retrieverType := some "custom",
          bm25Options := { b := some 2 } }).1.status = "success" :=
  ⟨(c8_amended {} readySession
      { retrieverType := some "custom", bm25Options := { b := some 2 } }
      (by decide) (by decide)).1,
   (c8_amended {} readySession
      { retrieverType := some "custom", bm25Options := { b := some 2 } }
      (by decide) (by decide)).2.2 rfl⟩

/-- Whatever the build outcomes, an index run with retriever `r` in hand
leaves `r` installed and never yields the setup error response. -/
theorem indexWithRetrieverKeeps (fsys : FSys) (primary fallback : BuildOutcome)
    (s : Session) (cmd : IndexCmd) (r : Retriever) :
    (indexWithRetriever fsys primary fallback s cmd r).session.retriever = some r
    ∧ ∀ msg, (indexWithRetriever fsys primary fallback s cmd r).response ≠
        .setupError msg := by
  by_cases h : (collectedFor fsys cmd).textDocuments = [] <;>
    cases primary <;> cases fallback <;> simp [indexWithRetriever, h]

/-- C10: an `index` command in the Unconfigured state does not error for
being unconfigured — it behaves exactly like the same command run with the
default retriever of the command's `retriever_type` (sparse by default,
with the command's k1/b/epsilon applied in the sparse case) already
installed, and that retriever ends up in the session. -/
theorem c10_unconfigured_index (env : Env) (fsys : FSys)
    (primary fallback : BuildOutcome) (s : Session) (cmd : IndexCmd)
    (hNone : s.retriever = none)
    (hAvail : availableFor env (cmd.retrieverType.getD "sparse") = true) :
    processIndex env fsys primary fallback s cmd =
      processIndex env fsys primary fallback
        { s with retriever := some (defaultRetrieverFor
            (cmd.retrieverType.getD "sparse") (cmd.options.k1.getD 1.5)
            (cmd.options.b.getD 0.75) (cmd.options.epsilon.getD 0.25)) } cmd
    ∧ (processIndex env fsys primary fallback s cmd).session.retriever =
        some (defaultRetrieverFor (cmd.retrieverType.getD "sparse")
          (cmd.options.k1.getD 1.5) (cmd.options.b.getD 0.75)
          (cmd.options.epsilon.getD 0.25))
    ∧ ∀ msg, (processIndex env fsys primary fallback s cmd).response ≠
        .setupError msg := by
  have hred : processIndex env fsys primary fallback s cmd =
      indexWithRetriever fsys primary fallback s cmd
        (defaultRetrieverFor (cmd.retrieverType.getD "sparse")
          (cmd.options.k1.getD 1.5) (cmd.options.b.getD 0.75)
          (cmd.options.epsilon.getD 0.25)) := by
    simp [processIndex, hNone, hAvail]
  refine ⟨?_, ?_, ?_⟩
  · rw [hred]
    rfl
  · rw [hred]
    exact (indexWithRetrieverKeeps fsys primary fallback s cmd _).1
  · rw [hred]
    exact (indexWithRetrieverKeeps fsys primary fallback s cmd _).2

theorem c10_witness :
    processIndex {} [] .ok .ok initialSession
        { documents := ["hello world"], options := { k1 := some 2 } } =
      processIndex {} [] .ok .ok
        { initialSession with
          retriever := some (defaultRetrieverFor "sparse" 2 0.75 0.25) }
        { documents := ["hello world"], options := { k1 := some 2 } }
    ∧ (processIndex {} [] .ok .ok initialSession
        { documents := ["hello world"],
          options := { k1 := some 2 } }).session.retriever =
        some (defaultRetrieverFor "sparse" 2 0.75 0.25) :=
  ⟨(c10_unconfigured_index {} [] .ok .ok initialSession
      { documents := ["hello world"], options := { k1 := some 2 } } rfl rfl).1,
   (c10_unconfigured_index {} [] .ok .ok initialSession
      { documents := ["hello world"], options := { k1 := some 2 } } rfl rfl).2.1⟩

/-- C1 counterexample: with a working one-document index in place, an
`index` of `["new"]` whose primary and fallback builds both fail reports
the combined build error, yet the session's corpus has already been
replaced by the new collection — the prior corpus is not intact. -/
theorem c1_counterexample :
    (processIndex {} [] (.fail "E1") (.fail "E2") indexedOldSession
        { documents := ["new"] }).response =
      .buildError "Error during indexing: E1. Alternative method error: E2" 1
    ∧ (processIndex {} [] (.fail "E1") (.fail "E2") indexedOldSession
        { documents := ["new"] }).session.indexedDocs = ["new"]
    ∧ indexedOldSession.indexedDocs = ["old text"]
    ∧ (["new"] : List String) ≠ ["old text"] := by
  refine ⟨rfl, rfl, rfl, by decide⟩

/-- C1 (amended): when both the primary and the fallback build fail, the
`indexed` flag and the retriever are left untouched — so a previously
working index remains usable for subsequent searches — but the corpus
(`indexed_docs`/`indexed_files`) has already been replaced,
unconditionally, by the newly collected documents before the build was
attempted. -/
theorem c1_amended (env : Env) (fsys : FSys) (e1 e2 : String) (s : Session)
    (cmd : IndexCmd) (r : Retriever) (hr : s.retriever = some r)
    (hne : (collectedFor fsys cmd).textDocuments ≠ []) :
    (processIndex env fsys (.fail e1) (.fail e2) s cmd).response =
      .buildError ("Error during indexing: " ++ e1 ++
        ". Alternative method error: " ++ e2)
        (collectedFor fsys cmd).textDocuments.length
    ∧ (processIndex env fsys (.fail e1) (.fail e2) s cmd).session.indexed =
        s.indexed
    ∧ (processIndex env fsys (.fail e1) (.fail e2) s cmd).session.retriever =
        some r
    ∧ (processIndex env fsys (.fail e1) (.fail e2) s cmd).session.indexedDocs =
        (collectedFor fsys cmd).textDocuments.map TextDoc.text
    ∧ (processIndex env fsys (.fail e1) (.fail e2) s cmd).session.indexedFiles =
        (collectedFor fsys cmd).filePaths := by
  simp [processIndex, indexWithRetriever, hr, hne]

theorem c1_witness :
    (processIndex {} [] (.fail "boom") (.fail "crash") indexedOldSession
        { documents := ["fresh doc"] }).session.indexed =
      indexedOldSession.indexed
    ∧ (processIndex {} [] (.fail "boom") (.fail "crash") indexedOldSession
        { documents := ["fresh doc"] }).session.retriever =
        some (defaultRetrieverFor "sparse" 1.5 0.75 0.25)
    ∧ (processIndex {} [] (.fail "boom") (.fail "crash") indexedOldSession
        { documents := ["fresh doc"] }).session.indexedDocs =
        (collectedFor [] { documents := ["fresh doc"] }).textDocuments.map
          TextDoc.text :=
  ⟨(c1_amended {} [] "boom" "crash" indexedOldSession
      { documents := ["fresh doc"] }
      (defaultRetrieverFor "sparse" 1.5 0.75 0.25) rfl (by decide)).2.1,
   (c1_amended {} [] "boom" "crash" indexedOldSession
      { documents := ["fresh doc"] }
      (defaultRetrieverFor "sparse" 1.5 0.75 0.25) rfl (by decide)).2.2.1,
   (c1_amended {} [] "boom" "crash" indexedOldSession
      { documents := ["fresh doc"] }
      (defaultRetrieverFor "sparse" 1.5 0.75 0.25) rfl (by decide)).2.2.2.1⟩

/-- C2 counterexample: an `index` whose primary build fails and whose
fallback build also fails emits its response with the staging JSONL still
on the filesystem — `os.remove` is only reached on the fallback's success
path. -/
theorem c2_counterexample :
    (processIndex {} [] (.fail "E1") (.fail "E2") readySession
        { documents := ["new"] }).stagingLeft = true := rfl

/-- C2 (amended): the staging artifact survives an `index` command exactly
when the fallback path was reached and its build also failed; it is
deleted before the response only on the fallback's success outcome, and is
never created when setup fails, nothing was collected, or the primary
build succeeds. -/
theorem c2_amended (env : Env) (fsys : FSys)
    (primary fallback : BuildOutcome) (s : Session) (cmd : IndexCmd) :
    (processIndex env fsys primary fallback s cmd).stagingLeft =
      (setupOk env s cmd && !(collectedFor fsys cmd).textDocuments.isEmpty
        && primary.failed && fallback.failed) := by
  cases hsr : s.retriever with
  | some r =>
    by_cases h : (collectedFor fsys cmd).textDocuments = [] <;>
      cases primary <;> cases fallback <;>
      simp [processIndex, indexWithRetriever, setupOk, BuildOutcome.failed,
        hsr, h]
  | none =>
    cases hA : availableFor env (cmd.retrieverType.getD "sparse") with
    | true =>
      by_cases h : (collectedFor fsys cmd).textDocuments = [] <;>
        cases primary <;> cases fallback <;>
        simp [processIndex, indexWithRetriever, setupOk, BuildOutcome.failed,
          hsr, hA, h]
    | false =>
      simp [processIndex, setupOk, hsr, hA]

/-- C3: evaluation at the failing input `documents = ["a", "", "b"]` —
the skipped empty middle document leaves a gap: the assigned identifiers
are doc_0 and doc_2 (with synthetic origins document_0 and document_2),
not the dense zero-based set doc_0, doc_1, although `document_count` is 2
as claimed. -/
theorem c3_inline_gap :
    (collectDocuments ["a", "", "b"]).docIds = ["doc_0", "doc_2"]
    ∧ (processIndex {} [] .ok .ok readySession
        { documents := ["a", "", "b"] }).response =
        .success 2 ["document_0", "document_2"] 2
    ∧ (collectDocuments ["a", "", "b"]).docIds ≠ ["doc_0", "doc_1"] := by
  refine ⟨rfl, rfl, by decide⟩

/-- A successful configure always clears the indexed flag. -/
theorem configureSuccessClears (env : Env) (s : Session) (c : ConfigureCmd)
    (h : (processConfigure env s c).1.status = "success") :
    (processConfigure env s c).2.indexed = false := by
  unfold processConfigure at h ⊢
  by_cases h1 : c.retrieverType.getD "sparse" = "dense"
  · rw [if_pos h1] at h ⊢
    cases hE : env.denseAvailable <;>
      simp only [configureDense, hE] at h ⊢ <;> simp_all
  · rw [if_neg h1] at h ⊢
    by_cases h2 : c.retrieverType.getD "sparse" = "hybrid"
    · rw [if_pos h2] at h ⊢
      cases hE : env.hybridAvailable <;>
        simp only [configureHybrid, hE] at h ⊢ <;> simp_all
    · rw [if_neg h2] at h ⊢
      cases hE : env.sparseAvailable <;>
        simp only [configureSparse, hE] at h ⊢ <;> simp_all

/-- C4: a `search` from any state that is not Indexed (indexed flag false
or no retriever) returns the `No documents have been indexed yet`
empty-result response rather than a protocol error; and after any
successful `configure_retriever` — in particular one following a
successful `index` — a `search` gets that same response, because a
successful configure always clears the indexed flag. -/
theorem c4_configure_invalidates (env : Env)
    (qres : Except String (List RawResult)) (s : Session) (c : ConfigureCmd)
    (sc : SearchCmd) (hOk : (processConfigure env s c).1.status = "success") :
    processSearch qres (processConfigure env s c).2 sc =
      ⟨⟨[], some "No documents have been indexed yet"⟩,
       (processConfigure env s c).2, false⟩
    ∧ ∀ s0 : Session, s0.indexed = false ∨ s0.retriever = none →
        processSearch qres s0 sc =
          ⟨⟨[], some "No documents have been indexed yet"⟩, s0, false⟩ := by
  constructor
  · have hidx := configureSuccessClears env s c hOk
    unfold processSearch
    rw [hidx]
    rfl
  · intro s0 h0
    unfold processSearch
    rcases h0 with h0 | h0
    · rw [h0]
      rfl
    · rw [h0]
      simp

theorem c4_witness :
    processSearch (.ok []) (processConfigure {} chainSession {}).2
        { query := some "cat" } =
      ⟨⟨[], some "No documents have been indexed yet"⟩,
       (processConfigure {} chainSession {}).2, false⟩
    ∧ chainSession.indexed = true :=
  ⟨(c4_configure_invalidates {} (.ok []) chainSession {}
      { query := some "cat" } rfl).1, rfl⟩

/-- C5 counterexample: a pair-shaped raw entry with identifier "doc_0"
against a one-document corpus is not resolved through index 0 as the claim
states — `int("doc_0")` raises, so the entry degrades to the placeholder,
whose actual wording is `[Content not available for doc_0]`, not the
claimed `[content unavailable for doc_0]`. -/
theorem c5_counterexample :
    processResult ["alpha"] ["fileA"] 0 (.pair (.str "doc_0") (.num 2)) =
      some ⟨0, 2, "[Content not available for doc_0]", "Unknown"⟩
    ∧ ("[Content not available for doc_0]" : String) ≠ "alpha"
    ∧ ("[Content not available for doc_0]" : String) ≠
        "[content unavailable for doc_0]" := by
  refine ⟨rfl, by decide, by decide⟩

/-- C5 (amended): only dict-shaped entries parse `doc_<n>` identifiers,
and the parsed ordinal is used solely as a zero-based index into the
origin table to recover `file_path` (the content always comes from the
entry's own text field); on a parse failure or an out-of-range ordinal the
origin degrades to "Unknown".  Pair-shaped entries convert their
identifier with Python `int` semantics — every `doc_<n>` string fails that
conversion — and degrade to the placeholder text
`[Content not available for <id>]` with origin "Unknown".  Either way the
entry is produced and the query does not fail. -/
theorem c5_amended (docs files : List String) (i : Nat) (t : String) (q : Rat)
    (text? : Option String) :
    processResult docs files i
        (.dict (some (.str ("doc_" ++ t))) (some (.num q)) text?) =
      some ⟨i, q, text?.getD "",
        match pyInt? t with
        | some m =>
          if 0 ≤ m ∧ m < (files.length : Int) then files.getD m.toNat "Unknown"
          else "Unknown"
        | none => "Unknown"⟩
    ∧ processResult docs files i (.pair (.str ("doc_" ++ t)) (.num q)) =
        some ⟨i, q, "[Content not available for " ++ ("doc_" ++ t) ++ "]",
          "Unknown"⟩ := by
  have hfp : dictFilePath (.str ("doc_" ++ t)) files =
      (match pyInt? t with
       | some m =>
         if 0 ≤ m ∧ m < (files.length : Int) then files.getD m.toNat "Unknown"
         else "Unknown"
       | none => "Unknown") := by
    show (if strStartsWith ("doc_" ++ t) "doc_" = true then
        match pyInt? (strDrop ("doc_" ++ t) 4) with
        | some idx =>
          if 0 ≤ idx ∧ idx < (files.length : Int) then
            files.getD idx.toNat "Unknown"
          else "Unknown"
        | none => "Unknown"
      else "Unknown") = _
    rw [strStartsWithAppendSelf, strDropDocPrefixed, if_pos rfl]
  have hcf : pairContentPath docs files (.str ("doc_" ++ t)) =
      ("[Content not available for " ++ ("doc_" ++ t) ++ "]", "Unknown") := by
    unfold pairContentPath
    rw [show tupleIdx? (IdVal.str ("doc_" ++ t)) = pyInt? ("doc_" ++ t)
        from rfl, pyIntNoneOfDocPrefixed]
    rfl
  constructor
  · simp only [processResult, Option.getD_some]
    rw [hfp]
    rfl
  · simp only [processResult]
    rw [hcf]
    rfl

/-- C6: for a `search` answered by the backend, the emitted entries carry
strictly increasing received ranks (backend order, never re-sorted), each
entry is exactly the resolution of the raw entry at its own rank, a raw
entry whose resolution raises contributes nothing at its rank, and the
response carries no error. -/
theorem c6_rank_order (s : Session) (cmd : SearchCmd) (rs : List RawResult)
    (hIdx : s.indexed = true) (hr : s.retriever.isNone = false)
    (hq : (cmd.query.getD "").isEmpty = false) :
    (processSearch (.ok rs) s cmd).response.error = none
    ∧ List.Pairwise (fun a b => a < b)
        (((processSearch (.ok rs) s cmd).response.results).map
          FormattedResult.index)
    ∧ (∀ fr ∈ (processSearch (.ok rs) s cmd).response.results,
        ∃ h : fr.index < rs.length,
          processResult s.indexedDocs s.indexedFiles fr.index
            (rs.get ⟨fr.index, h⟩) = some fr)
    ∧ (∀ i, ∀ h : i < rs.length,
        processResult s.indexedDocs s.indexedFiles i (rs.get ⟨i, h⟩) = none →
        ∀ fr ∈ (processSearch (.ok rs) s cmd).response.results,
          fr.index ≠ i) := by
  have hresp : processSearch (.ok rs) s cmd =
      ⟨⟨formatResults s.indexedDocs s.indexedFiles rs, none⟩, s, true⟩ := by
    simp only [processSearch, hIdx, hr, hq, Bool.not_true, Bool.or_false,
      Bool.false_eq_true, if_false]
  rw [hresp]
  refine ⟨rfl, formatResultsAuxPairwise _ _ rs 0, ?_, ?_⟩
  · intro fr hfr
    obtain ⟨j, hj, hidx, hres⟩ :=
      formatResultsAuxMem s.indexedDocs s.indexedFiles rs 0 fr hfr
    have hj2 : fr.index = j := by omega
    subst hj2
    exact ⟨hj, hres⟩
  · intro i h hnone fr hfr
    have := formatResultsAuxNotMem s.indexedDocs s.indexedFiles rs 0 i h
      (by simpa using hnone) fr hfr
    omega

theorem c6_witness :
    (processSearch
        (.ok [.dict (some (.str "doc_1")) (some (.num 3)) (some "banana"),
          .pair (.str "0") (.nonNumeric "NaN"),
          .pair (.int 0) (.num 2), .other]) chainSession
        { query := some "cat" }).response.error = none
    ∧ List.Pairwise (fun a b => a < b)
        (((processSearch
            (.ok [.dict (some (.str "doc_1")) (some (.num 3)) (some "banana"),
              .pair (.str "0") (.nonNumeric "NaN"),
              .pair (.int 0) (.num 2), .other]) chainSession
            { query := some "cat" }).response.results).map
          FormattedResult.index) :=
  ⟨(c6_rank_order chainSession { query := some "cat" }
      [.dict (some (.str "doc_1")) (some (.num 3)) (some "banana"),
       .pair (.str "0") (.nonNumeric "NaN"),
       .pair (.int 0) (.num 2), .other] rfl rfl rfl).1,
   (c6_rank_order chainSession { query := some "cat" }
      [.dict (some (.str "doc_1")) (some (.num 3)) (some "banana"),
       .pair (.str "0") (.nonNumeric "NaN"),
       .pair (.int 0) (.num 2), .other] rfl rfl rfl).2.1⟩

end RetrivBridge
